import Mathlib

/-!
Verification development for the high-precision fitness evaluator of the
6dQfoam repository.  The definitions below are a shallow embedding of
`server/genetic-algorithm/high_precision_worker.py` (the direct-mapping
variant, namespace `GA1`) and
`server/genetic-algorithm2/high_precision_worker.py` (the VEV-mediated
variant, namespace `GA2`), together with a model of the line-oriented
worker protocol of their `main` loops.  Python `Decimal` arithmetic is
idealised as exact real arithmetic; the process-wide precision context is
threaded explicitly as a natural number (the digit count).
-/

namespace HPWorker

noncomputable section

/-! ## Shared constants (`shared_constants.py` and module-level constants) -/

/-- `C_TARGET_DEC = Decimal('299792458')` -/
def C_TARGET : ℝ := 299792458

/-- `ALPHA_TARGET_DEC = Decimal('0.007297352566405895')` -/
def ALPHA_TARGET : ℝ := 0.007297352566405895

/-- `G_TARGET_DEC = Decimal('6.67430e-11')` -/
def G_TARGET : ℝ := 6.67430e-11

/-- `PI = Decimal('3.141592653589793238462643383279')` — the code uses this
rational literal, not the exact real number pi. -/
def PI : ℝ := 3.141592653589793238462643383279

/-- `EPS_C = Decimal('1e-6')` — final relative tolerance for C. -/
def EPS_C : ℝ := 1e-6

/-- `EPS_G = Decimal('1e-4')` — final relative tolerance for G. -/
def EPS_G : ℝ := 1e-4

/-! ## PrecisionScheduler (`set_precision_for_generation`, identical in both
variant files): maps a generation to the Decimal context digit count. -/

/-- `set_precision_for_generation`: `ctx.prec = 16` for generation < 500,
`20` for generation < 1000, else `30`. -/
def set_precision_for_generation (generation : ℕ) : ℕ :=
  if generation < 500 then 16
  else if generation < 1000 then 20
  else 30

/-- Module initialisation runs `set_precision_for_generation(0)`, so the
worker starts with a 16-digit context. -/
def initial_precision : ℕ := set_precision_for_generation 0

/-! ## ConstraintScheduler (lines 157-181 of the GA1 file, lines 134-151 of
the GA2 file; the code is identical in both).  Returns the pair
`(effective_eps_c, effective_eps_g)` for a generation. -/

/-- The progressive constraint-tightening schedule: warmup below generation
10, geometric ramp on `[10, 100)`, full constraints from 100 on, with the
stagnation relaxation `min(eps * (1 + (g-500)*1e-4), eps * 2)` past 500. -/
def effective_eps (generation : ℕ) : ℝ × ℝ :=
  if generation < 10 then
    (0.01, 0.1)
  else if generation < 100 then
    let progress : ℝ := ((generation : ℝ) - 10) / 90
    (0.01 * (EPS_C / 0.01) ^ progress, 0.1 * (EPS_G / 0.1) ^ progress)
  else if generation > 500 then
    let stagnation_factor : ℝ := 1 + ((generation : ℝ) - 500) * 0.0001
    (min (EPS_C * stagnation_factor) (EPS_C * 2),
      min (EPS_G * stagnation_factor) (EPS_G * 2))
  else
    (EPS_C, EPS_G)

theorem effective_eps_warmup {g : ℕ} (h : g < 10) :
    effective_eps g = (0.01, 0.1) := by
  unfold effective_eps
  rw [if_pos h]

theorem effective_eps_ramp {g : ℕ} (h10 : 10 ≤ g) (h100 : g < 100) :
    effective_eps g =
      (0.01 * (EPS_C / 0.01) ^ (((g : ℝ) - 10) / 90),
        0.1 * (EPS_G / 0.1) ^ (((g : ℝ) - 10) / 90)) := by
  unfold effective_eps
  rw [if_neg (by omega), if_pos h100]

theorem effective_eps_final {g : ℕ} (h100 : 100 ≤ g) (h500 : g ≤ 500) :
    effective_eps g = (EPS_C, EPS_G) := by
  unfold effective_eps
  rw [if_neg (by omega), if_neg (by omega), if_neg (by omega)]

theorem effective_eps_stagnation {g : ℕ} (h : 500 < g) :
    effective_eps g =
      (min (EPS_C * (1 + ((g : ℝ) - 500) * 0.0001)) (EPS_C * 2),
        min (EPS_G * (1 + ((g : ℝ) - 500) * 0.0001)) (EPS_G * 2)) := by
  unfold effective_eps
  rw [if_neg (by omega), if_neg (by omega), if_pos h]

/-! ## ObservableModel, direct-mapping variant (GA1, lines 57-259) -/

/-- From Euler-Lagrange: `A_coeff = -2*c0`, `B_coeff = -2*c1`,
`c_squared = -B_coeff / A_coeff` (lines 94-96). -/
def c_squared_of (c0 c1 : ℝ) : ℝ := -(-2 * c1) / (-2 * c0)

/-- Lines 98-124: flip a negative dispersion ratio to its absolute value,
take `sqrt(|c/squared|) * C_TARGET * sign`, and fall back to natural units
`sqrt(|c_squared|)` when the magnitude exceeds `2 * C_TARGET`. -/
def c_model_of (c0 c1 : ℝ) : ℝ :=
  let cs0 := c_squared_of c0 c1
  let cs := if cs0 < 0 then -cs0 else cs0
  let cm := Real.sqrt |cs| * C_TARGET * (if 0 ≤ cs then 1 else -1)
  if |cm| > 2 * C_TARGET then Real.sqrt |cs| else cm

/-- Line 150: `delta_c = abs(c_model - C_TARGET_DEC) / C_TARGET_DEC`. -/
def delta_c_of (c0 c1 : ℝ) : ℝ := |c_model_of c0 c1 - C_TARGET| / C_TARGET

/-- Lines 131-143, the kappa-to-G heuristic: below `1e-30` the model is
infinite (encoded `none`) with deviation pinned to 1; strictly between
`1e-13` and `1e-2` the coefficient is taken to be Newton's G itself;
otherwise it is treated as kappa, `G = 1 / (16 * PI * |coeff|)`. -/
def gravity_branch (grav_coeff : ℝ) : Option ℝ × ℝ :=
  if |grav_coeff| < 1e-30 then
    (none, 1)
  else if 1e-13 < |grav_coeff| ∧ |grav_coeff| < 1e-2 then
    (some grav_coeff, |grav_coeff - G_TARGET| / G_TARGET)
  else
    (some (1 / (16 * PI * |grav_coeff|)),
      |1 / (16 * PI * |grav_coeff|) - G_TARGET| / G_TARGET)

/-- The relative gravitational deviation `delta_G` produced by the
kappa-to-G heuristic. -/
def delta_G_of (grav_coeff : ℝ) : ℝ := (gravity_branch grav_coeff).2

/-- Result dictionary of the GA1 evaluator.  `g_model = none` encodes the
float infinity produced when `G_model == Decimal('Infinity')`;
`precision_mode` is present only on the success dictionary; `error = true`
records the `"error"` annotation added by the `except` handler. -/
structure EvalResult where
  fitness : ℝ
  c_model : ℝ
  alpha_model : ℝ
  g_model : Option ℝ
  delta_c : ℝ
  delta_alpha : ℝ
  delta_g : ℝ
  coefficients : List ℝ
  precision_mode : Option String
  error : Bool

/-- The rejection dictionary repeated at lines 79-88, 106-115 (with fitness
1000), 191-200 and 249-259 of the GA1 file: sentinel fitness, zero models,
all deviations 1. -/
def knockoutResult (coefficients : List ℝ) : EvalResult :=
  { fitness := 1e9
    c_model := 0
    alpha_model := 0
    g_model := some 0
    delta_c := 1
    delta_alpha := 1
    delta_g := 1
    coefficients := coefficients
    precision_mode := none
    error := false }

/-- Body of `evaluate_chromosome_high_precision` (GA1) once the six
coefficients have been extracted.  The `c_digits`/`g_digits`/`c_exact`
computations of lines 203-205 and the disabled logging of lines 183-187
have no effect on the returned dictionary and are omitted. -/
def evaluate_core (c0 c1 c2 c3 c4 grav_coeff : ℝ)
    (coefficients : List ℝ) (generation : ℕ) : EvalResult :=
  if |c0| < 1e-15 then
    knockoutResult coefficients
  else
    let extra_penalty : ℝ := if c_squared_of c0 c1 < 0 then 5 else 0
    let c_squared : ℝ :=
      if c_squared_of c0 c1 < 0 then -c_squared_of c0 c1 else c_squared_of c0 c1
    if c_squared = 0 then
      { knockoutResult coefficients with fitness := 1000 }
    else
      let c_model := c_model_of c0 c1
      let alpha_model := |c4| / (4 * PI)
      let G_model := (gravity_branch grav_coeff).1
      let delta_G := delta_G_of grav_coeff
      let delta_c := delta_c_of c0 c1
      let delta_alpha := |alpha_model - ALPHA_TARGET| / ALPHA_TARGET
      if delta_c > (effective_eps generation).1 ∨
          delta_G > (effective_eps generation).2 then
        knockoutResult coefficients
      else
        let ghost_penalty : ℝ :=
          if (0 < c0 ∧ 0 < c1) ∨ (c0 < 0 ∧ c1 < 0) then 1 else 0
        let tachyon_penalty : ℝ := if 0 < c2 then 0.5 else 0
        let em_penalty : ℝ := if 0 < c4 then 0.05 else 0
        let struct_penalty : ℝ :=
          0.2 * max 0 (|c2| - 0.5) + 0.1 * max 0 (|c3| - 0.25)
        { fitness := delta_alpha + ghost_penalty + tachyon_penalty +
            em_penalty + extra_penalty + struct_penalty
          c_model := c_model
          alpha_model := alpha_model
          g_model := G_model
          delta_c := delta_c
          delta_alpha := delta_alpha
          delta_g := delta_G
          coefficients := coefficients
          precision_mode := some "high_precision_decimal"
          error := false }

/-- `evaluate_chromosome_high_precision` of the GA1 file.  A coefficient
list of the wrong length raises `ValueError`, which the `except` handler
converts into the sentinel dictionary with an error annotation; the Lean
function is total, so no exception escapes to the caller. -/
def evaluate_chromosome_high_precision
    (coefficients : List ℝ) (generation : ℕ) : EvalResult :=
  if coefficients.length ≠ 6 then
    { knockoutResult coefficients with error := true }
  else
    evaluate_core (coefficients.getD 0 0) (coefficients.getD 1 0)
      (coefficients.getD 2 0) (coefficients.getD 3 0)
      (coefficients.getD 4 0) (coefficients.getD 5 0)
      coefficients generation

theorem evaluate_cons (a b c d e f : ℝ) (generation : ℕ) :
    evaluate_chromosome_high_precision [a, b, c, d, e, f] generation =
      evaluate_core a b c d e f [a, b, c, d, e, f] generation := by
  unfold evaluate_chromosome_high_precision
  simp [List.getD]

theorem evaluate_core_gate_knockout (a b c d e f : ℝ) (coefficients : List ℝ)
    (generation : ℕ) (hab : |a| < 1e-15 ∨ b ≠ 0)
    (hgate : delta_c_of a b > (effective_eps generation).1 ∨
      delta_G_of f > (effective_eps generation).2) :
    evaluate_core a b c d e f coefficients generation =
      knockoutResult coefficients := by
  by_cases ha : |a| < 1e-15
  · unfold evaluate_core
    rw [if_pos ha]
  · have hb : b ≠ 0 := hab.resolve_left ha
    have ha0 : a ≠ 0 := fun h => ha (by rw [h]; norm_num)
    have hcs : c_squared_of a b ≠ 0 := by
      unfold c_squared_of
      refine div_ne_zero (fun h => hb (by linarith)) (fun h => ha0 (by linarith))
    have hflip :
        ¬((if c_squared_of a b < 0 then -c_squared_of a b
            else c_squared_of a b) = 0) := by
      split_ifs with h
      · simpa using hcs
      · exact hcs
    simp only [evaluate_core]
    rw [if_neg ha, if_neg hflip, if_pos hgate]

/-! ## ObservableModel, VEV-mediated variant (GA2, lines 57-263) -/

namespace GA2

/-- Lines 77-87: the vacuum expectation value `phi0 = sqrt(c2 / c3)` when
both potential coefficients are positive, otherwise 0 (with a stability
penalty accounted separately). -/
def phi0_of (c2 c3 : ℝ) : ℝ :=
  if 0 < c2 ∧ 0 < c3 then Real.sqrt (c2 / c3) else 0

/-- Lines 90-97: `alpha_eff = ALPHA_TARGET / (1 + g_em * phi0^2)` when
`phi0 > 0`, else the standard value.  The default Decimal context traps
`DivisionByZero`, so a denominator that is exactly zero raises instead of
producing a value; that raising outcome is encoded as `none`. -/
def alpha_eff_of (g_em c2 c3 : ℝ) : Option ℝ :=
  if 0 < phi0_of c2 c3 then
    let denom := 1 + g_em * phi0_of c2 c3 * phi0_of c2 c3
    if denom = 0 then none else some (ALPHA_TARGET / denom)
  else some ALPHA_TARGET

/-- Lines 90-97: `G_eff = G_TARGET / (1 + xi * phi0^2)` when `phi0 > 0`,
else the standard value; `none` encodes the trapped `DivisionByZero`
raised on a denominator that is exactly zero. -/
def G_eff_of (xi c2 c3 : ℝ) : Option ℝ :=
  if 0 < phi0_of c2 c3 then
    let denom := 1 + xi * phi0_of c2 c3 * phi0_of c2 c3
    if denom = 0 then none else some (G_TARGET / denom)
  else some G_TARGET

/-- Lines 121-127: the dispersion ratio is replaced by its absolute value
when non-positive (with a penalty), then `c_model = sqrt(c_squared) * C`. -/
def c_model_of (c0 c1 : ℝ) : ℝ :=
  let cs0 := c_squared_of c0 c1
  let cs := if cs0 ≤ 0 then |cs0| else cs0
  Real.sqrt cs * C_TARGET

/-- Line 130: relative deviation of the modeled speed. -/
def delta_c_of (c0 c1 : ℝ) : ℝ := |c_model_of c0 c1 - C_TARGET| / C_TARGET

end GA2

/-- Result dictionary of the GA2 evaluator.  `elegance_details` (the triple
`c3_elegance`, `coupling_simplicity`, `relation_bonus`) and
`precision_mode` are present only on the success dictionary. -/
structure EvalResult2 where
  fitness : ℝ
  c_model : ℝ
  alpha_model : ℝ
  g_model : ℝ
  delta_c : ℝ
  delta_alpha : ℝ
  delta_g : ℝ
  phi0 : ℝ
  elegance_score : ℝ
  elegance_details : Option (ℝ × ℝ × ℝ)
  g_em : ℝ
  xi : ℝ
  coefficients : List ℝ
  precision_mode : Option String
  error : Bool

namespace GA2

/-- The rejection dictionary of the GA2 file (lines 155-168, and with
fitness 1000 at lines 106-119, and with an error annotation at lines
249-263): sentinel fitness, zero models, all deviations 1, raw couplings
echoed back. -/
def knockoutResult2 (coefficients : List ℝ) (g_em xi : ℝ) : EvalResult2 :=
  { fitness := 1e9
    c_model := 0
    alpha_model := 0
    g_model := 0
    delta_c := 1
    delta_alpha := 1
    delta_g := 1
    phi0 := 0
    elegance_score := 0
    elegance_details := none
    g_em := g_em
    xi := xi
    coefficients := coefficients
    precision_mode := none
    error := false }

/-- Body of the GA2 `evaluate_chromosome_high_precision` once the six
coefficients `c0, c1, c2, c3, g_em, xi` have been extracted.  Phase 2
(lines 90-97) runs before the kinetic guard of line 105, and either of its
divisions may raise the trapped `decimal.DivisionByZero`; both raise sites
are caught by the handler of lines 243-263, which returns the same
error-annotated sentinel dictionary.  `vev_penalty` and `disp_penalty` are
the two accumulations into the code's `fitness_penalty`. -/
def evaluate_core2 (c0 c1 c2 c3 g_em xi : ℝ)
    (coefficients : List ℝ) (generation : ℕ) : EvalResult2 :=
  let phi0 := phi0_of c2 c3
  let vev_penalty : ℝ := if 0 < c2 ∧ 0 < c3 then 0 else 10
  match alpha_eff_of g_em c2 c3, G_eff_of xi c2 c3 with
  | none, _ =>
    { knockoutResult2 coefficients g_em xi with error := true }
  | some _, none =>
    { knockoutResult2 coefficients g_em xi with error := true }
  | some alpha_eff, some G_eff =>
  if |(-2) * c0| < 1e-15 then
    { knockoutResult2 coefficients g_em xi with fitness := 1000 }
  else
    let disp_penalty : ℝ := if c_squared_of c0 c1 ≤ 0 then 5 else 0
    let delta_c := delta_c_of c0 c1
    let delta_alpha := |alpha_eff - ALPHA_TARGET| / ALPHA_TARGET
    let delta_g := |G_eff - G_TARGET| / G_TARGET
    if delta_c > (effective_eps generation).1 ∨
        delta_g > (effective_eps generation).2 then
      knockoutResult2 coefficients g_em xi
    else
      let target_c3 : ℝ := 1 / (8 * PI)
      let c3_elegance : ℝ := max 0 (1 - |c3 - target_c3| / target_c3)
      let coupling_simplicity : ℝ := max 0 (1 - (|g_em| + |xi|) / 200)
      let relation_bonus : ℝ :=
        (if |g_em - c3| < 0.01 then 0.25 else 0) +
          (if |xi - c3 * c3| < 0.01 then 0.25 else 0)
      let elegance_score : ℝ :=
        0.5 * c3_elegance + 0.3 * coupling_simplicity + 0.2 * relation_bonus
      let ghost_penalty : ℝ := if c0 < 0 ∧ 0 < c1 then 0 else 1
      let tachyon_penalty : ℝ := if 0 ≤ c2 then 0 else 0.5
      let lorentz_eps : ℝ :=
        if c0 ≠ 0 then
          (if 0 < -c0 ∧ 0 < c1 then |Real.sqrt (c1 / -c0) - 1| else 1)
        else 1
      let lorentz_penalty : ℝ :=
        if lorentz_eps < 1e-12 then 0
        else if lorentz_eps < 1e-8 then 10 * lorentz_eps
        else 100 * lorentz_eps
      { fitness := delta_alpha + ghost_penalty + tachyon_penalty +
          lorentz_penalty + (vev_penalty + disp_penalty) -
          0.1 * elegance_score
        c_model := c_model_of c0 c1
        alpha_model := alpha_eff
        g_model := G_eff
        delta_c := delta_c
        delta_alpha := delta_alpha
        delta_g := delta_g
        phi0 := phi0
        elegance_score := elegance_score
        elegance_details := some (c3_elegance, coupling_simplicity, relation_bonus)
        g_em := g_em
        xi := xi
        coefficients := coefficients
        precision_mode := some "high_precision_decimal"
        error := false }

/-- `evaluate_chromosome_high_precision` of the GA2 file. -/
def evaluate_chromosome_high_precision
    (coefficients : List ℝ) (generation : ℕ) : EvalResult2 :=
  if coefficients.length ≠ 6 then
    { knockoutResult2 coefficients (coefficients.getD 4 0) (coefficients.getD 5 0)
        with error := true }
  else
    evaluate_core2 (coefficients.getD 0 0) (coefficients.getD 1 0)
      (coefficients.getD 2 0) (coefficients.getD 3 0)
      (coefficients.getD 4 0) (coefficients.getD 5 0)
      coefficients generation

theorem evaluate2_cons (a b c d e f : ℝ) (generation : ℕ) :
    evaluate_chromosome_high_precision [a, b, c, d, e, f] generation =
      evaluate_core2 a b c d e f [a, b, c, d, e, f] generation := by
  unfold evaluate_chromosome_high_precision
  simp [List.getD]

theorem evaluate_core2_gate_knockout (a b c d e f : ℝ) (coefficients : List ℝ)
    (generation : ℕ) (alpha_eff G_eff : ℝ)
    (hae : alpha_eff_of e c d = some alpha_eff)
    (hGe : G_eff_of f c d = some G_eff)
    (ha : ¬(|(-2) * a| < 1e-15))
    (hgate : delta_c_of a b > (effective_eps generation).1 ∨
      |G_eff - G_TARGET| / G_TARGET > (effective_eps generation).2) :
    evaluate_core2 a b c d e f coefficients generation =
      knockoutResult2 coefficients e f := by
  simp only [evaluate_core2]
  rw [hae, hGe]
  simp only []
  rw [if_neg ha, if_pos hgate]

theorem evaluate_core2_phase2_raise (a b c d e f : ℝ) (coefficients : List ℝ)
    (generation : ℕ)
    (h : alpha_eff_of e c d = none ∨ G_eff_of f c d = none) :
    evaluate_core2 a b c d e f coefficients generation =
      { knockoutResult2 coefficients e f with error := true } := by
  simp only [evaluate_core2]
  rcases h with h | h
  · rw [h]
  · rw [h]
    cases hae : alpha_eff_of e c d <;> rfl

end GA2

/-! ## WorkerProtocol (`main`, lines 262-304 of both files)

The loop reads lines from stdin; a blank line and an unrecognised command
produce no output.  An `evaluate` line calls the evaluator (which mutates
the precision context as its first action) and prints one JSON line; the
`except` handler inside the evaluator additionally prints two plain-text
diagnostic lines to stdout (`print(f"Python evaluator error: ...")` and
`print(f"Coefficients: ...")`) before the JSON response.  `ping` and
`test_precision` print one JSON line each and read, but do not change, the
precision context. -/

/-- A parsed input line of the worker protocol. -/
inductive InputLine where
  | blank : InputLine
  | evaluateCmd (coefficients : List ℝ) (generation : ℕ) : InputLine
  | pingCmd : InputLine
  | testPrecisionCmd : InputLine
  | otherCmd : InputLine

/-- The JSON objects the worker can print. -/
inductive JsonPayload where
  | evalResp (r : EvalResult) : JsonPayload
  | evalResp2 (r : EvalResult2) : JsonPayload
  | pingResp (status : String) (precision : ℕ) (mode : String) : JsonPayload
  | testPrecisionResp (test_value : String) (precision_digits : ℕ)
      (context_precision : ℕ) : JsonPayload

/-- One line of worker stdout: either a serialised JSON object or a plain
text print. -/
inductive OutLine where
  | json (payload : JsonPayload) : OutLine
  | text (s : String) : OutLine

/-- Stdout produced by one GA1 `evaluate` request: on the error path the
`except` handler first prints two non-JSON lines (the traceback goes to
stderr), then `main` prints the JSON result dictionary. -/
def evaluate_stdout (coefficients : List ℝ) (generation : ℕ) : List OutLine :=
  let r := evaluate_chromosome_high_precision coefficients generation
  (if r.error then
    [OutLine.text "Python evaluator error", OutLine.text "Coefficients"]
  else []) ++ [OutLine.json (JsonPayload.evalResp r)]

/-- One iteration of the GA1 `main` loop: new precision context and the
stdout lines printed for this input line. -/
def step (prec : ℕ) (line : InputLine) : ℕ × List OutLine :=
  match line with
  | InputLine.blank => (prec, [])
  | InputLine.evaluateCmd coefficients generation =>
      (set_precision_for_generation generation,
        evaluate_stdout coefficients generation)
  | InputLine.pingCmd =>
      (prec, [OutLine.json (JsonPayload.pingResp "ready" prec "high_precision_decimal")])
  | InputLine.testPrecisionCmd =>
      (prec, [OutLine.json (JsonPayload.testPrecisionResp
        "0.007297352566411018123456789" 28 prec)])
  | InputLine.otherCmd => (prec, [])

/-- Precision context after the GA1 loop has consumed a list of lines. -/
def runPrec (prec : ℕ) : List InputLine → ℕ
  | [] => prec
  | l :: rest => runPrec (step prec l).1 rest

/-- Stdout of the GA1 loop over a list of lines. -/
def runOutputs (prec : ℕ) : List InputLine → List OutLine
  | [] => []
  | l :: rest => (step prec l).2 ++ runOutputs (step prec l).1 rest

/-- Stdout produced by one GA2 `evaluate` request. -/
def evaluate_stdout2 (coefficients : List ℝ) (generation : ℕ) : List OutLine :=
  let r := GA2.evaluate_chromosome_high_precision coefficients generation
  (if r.error then
    [OutLine.text "Python evaluator error", OutLine.text "Coefficients"]
  else []) ++ [OutLine.json (JsonPayload.evalResp2 r)]

/-- One iteration of the GA2 `main` loop. -/
def step2 (prec : ℕ) (line : InputLine) : ℕ × List OutLine :=
  match line with
  | InputLine.blank => (prec, [])
  | InputLine.evaluateCmd coefficients generation =>
      (set_precision_for_generation generation,
        evaluate_stdout2 coefficients generation)
  | InputLine.pingCmd =>
      (prec, [OutLine.json (JsonPayload.pingResp "ready" prec "high_precision_decimal")])
  | InputLine.testPrecisionCmd =>
      (prec, [OutLine.json (JsonPayload.testPrecisionResp
        "0.007297352566411018123456789" 28 prec)])
  | InputLine.otherCmd => (prec, [])

/-- Precision context after the GA2 loop has consumed a list of lines. -/
def runPrec2 (prec : ℕ) : List InputLine → ℕ
  | [] => prec
  | l :: rest => runPrec2 (step2 prec l).1 rest

/-- Generation of the most recently processed `evaluate` command, if any. -/
def lastEvalGen : List InputLine → Option ℕ
  | [] => none
  | InputLine.evaluateCmd _ g :: rest => some ((lastEvalGen rest).getD g)
  | InputLine.blank :: rest => lastEvalGen rest
  | InputLine.pingCmd :: rest => lastEvalGen rest
  | InputLine.testPrecisionCmd :: rest => lastEvalGen rest
  | InputLine.otherCmd :: rest => lastEvalGen rest

/-- The precision tier reached after a command history: the tier of the
last `evaluate` generation, or the start-up value when none has run. -/
def tierFor (startPrec : ℕ) : Option ℕ → ℕ
  | none => startPrec
  | some g => set_precision_for_generation g

theorem runPrec_eq_tierFor (lines : List InputLine) :
    ∀ p : ℕ, runPrec p lines = tierFor p (lastEvalGen lines) := by
  induction lines with
  | nil => intro p; rfl
  | cons l rest ih =>
      intro p
      cases l with
      | blank => simpa [runPrec, step, lastEvalGen] using ih p
      | evaluateCmd co g =>
          have h := ih (set_precision_for_generation g)
          simp only [runPrec, step, lastEvalGen] at h ⊢
          rw [h]
          cases hl : lastEvalGen rest with
          | none => simp [tierFor, hl]
          | some g' => simp [tierFor, hl]
      | pingCmd => simpa [runPrec, step, lastEvalGen] using ih p
      | testPrecisionCmd => simpa [runPrec, step, lastEvalGen] using ih p
      | otherCmd => simpa [runPrec, step, lastEvalGen] using ih p

/-- The scheduled secondary tolerance never exceeds its warmup value 0.1
(so a gravitational deviation pinned to 1 always violates it). -/
theorem effective_eps_snd_le (generation : ℕ) :
    (effective_eps generation).2 ≤ 0.1 := by
  by_cases h10 : generation < 10
  · rw [effective_eps_warmup h10]
  · by_cases h100 : generation < 100
    · rw [effective_eps_ramp (by omega) h100]
      have hle : (EPS_G / 0.1 : ℝ) ^ (((generation : ℝ) - 10) / 90) ≤ 1 := by
        apply Real.rpow_le_one (by norm_num [EPS_G]) (by norm_num [EPS_G])
        have : (10 : ℝ) ≤ (generation : ℝ) := by
          exact_mod_cast Nat.le_of_not_lt h10
        linarith
      simpa using mul_le_of_le_one_right (by norm_num : (0:ℝ) ≤ 0.1) hle
    · by_cases h500 : 500 < generation
      · rw [effective_eps_stagnation h500]
        calc (min (EPS_G * (1 + ((generation : ℝ) - 500) * 0.0001)) (EPS_G * 2))
            ≤ EPS_G * 2 := min_le_right _ _
          _ ≤ 0.1 := by norm_num [EPS_G]
      · rw [effective_eps_final (by omega) (by omega)]
        norm_num [EPS_G]

/-- Claim C3: for every coefficient sequence whose length is not 6 and
every generation, `evaluate` returns the sentinel fitness `1e9` with all
three deviation fields equal to 1, and (the Lean function being total) no
exception escapes to the caller: the `ValueError` of line 68 is caught by
the handler of lines 243-259. -/
theorem C3_wrong_length_sentinel (coefficients : List ℝ) (generation : ℕ)
    (h : coefficients.length ≠ 6) :
    evaluate_chromosome_high_precision coefficients generation =
      { knockoutResult coefficients with error := true } ∧
    (evaluate_chromosome_high_precision coefficients generation).fitness = 1e9 ∧
    (evaluate_chromosome_high_precision coefficients generation).delta_c = 1 ∧
    (evaluate_chromosome_high_precision coefficients generation).delta_alpha = 1 ∧
    (evaluate_chromosome_high_precision coefficients generation).delta_g = 1 := by
  unfold evaluate_chromosome_high_precision
  rw [if_pos h]
  exact ⟨rfl, rfl, rfl, rfl, rfl⟩

theorem C3_wrong_length_sentinel_witness :
    ([] : List ℝ).length ≠ 6 ∧
    (evaluate_chromosome_high_precision [] 0).fitness = 1e9 ∧
    (evaluate_chromosome_high_precision [] 0).delta_c = 1 :=
  ⟨by decide, (C3_wrong_length_sentinel [] 0 (by decide)).2.1,
    (C3_wrong_length_sentinel [] 0 (by decide)).2.2.1⟩

/-- Claim C4: the scheduled tolerance pair is non-increasing in each
component on the ramp `[10, 100)`, constant and equal to the final pair
`(1e-6, 1e-4)` on `[100, 500]`, and non-decreasing for generation > 500
with each component capped at twice its final value (`2e-6` and `2e-4`). -/
theorem C4_tolerance_schedule_shape :
    (∀ g1 g2 : ℕ, 10 ≤ g1 → g1 ≤ g2 → g2 < 100 →
      (effective_eps g2).1 ≤ (effective_eps g1).1 ∧
      (effective_eps g2).2 ≤ (effective_eps g1).2) ∧
    (∀ g : ℕ, 100 ≤ g → g ≤ 500 → effective_eps g = (EPS_C, EPS_G)) ∧
    (∀ g1 g2 : ℕ, 500 < g1 → g1 ≤ g2 →
      (effective_eps g1).1 ≤ (effective_eps g2).1 ∧
      (effective_eps g1).2 ≤ (effective_eps g2).2) ∧
    (∀ g : ℕ, 500 < g →
      (effective_eps g).1 ≤ 2e-6 ∧ (effective_eps g).2 ≤ 2e-4) := by
  refine ⟨?_, ?_, ?_, ?_⟩
  · intro g1 g2 h1 h12 h2
    rw [effective_eps_ramp h1 (by omega), effective_eps_ramp (by omega) h2]
    have hp : ((g1 : ℝ) - 10) / 90 ≤ ((g2 : ℝ) - 10) / 90 := by
      have : (g1 : ℝ) ≤ g2 := Nat.cast_le.mpr h12
      linarith
    constructor
    · have hmono := Real.rpow_le_rpow_of_exponent_ge
        (x := EPS_C / 0.01) (by norm_num [EPS_C]) (by norm_num [EPS_C]) hp
      simpa using mul_le_mul_of_nonneg_left hmono (by norm_num : (0:ℝ) ≤ 0.01)
    · have hmono := Real.rpow_le_rpow_of_exponent_ge
        (x := EPS_G / 0.1) (by norm_num [EPS_G]) (by norm_num [EPS_G]) hp
      simpa using mul_le_mul_of_nonneg_left hmono (by norm_num : (0:ℝ) ≤ 0.1)
  · intro g h100 h500
    exact effective_eps_final h100 h500
  · intro g1 g2 h1 h12
    rw [effective_eps_stagnation h1, effective_eps_stagnation (by omega)]
    have hc : (g1 : ℝ) ≤ g2 := Nat.cast_le.mpr h12
    constructor
    · refine min_le_min (mul_le_mul_of_nonneg_left ?_ (by norm_num [EPS_C])) le_rfl
      nlinarith
    · refine min_le_min (mul_le_mul_of_nonneg_left ?_ (by norm_num [EPS_G])) le_rfl
      nlinarith
  · intro g h
    rw [effective_eps_stagnation h]
    constructor
    · calc (min (EPS_C * (1 + ((g : ℝ) - 500) * 0.0001)) (EPS_C * 2))
          ≤ EPS_C * 2 := min_le_right _ _
        _ ≤ 2e-6 := by norm_num [EPS_C]
    · calc (min (EPS_G * (1 + ((g : ℝ) - 500) * 0.0001)) (EPS_G * 2))
          ≤ EPS_G * 2 := min_le_right _ _
        _ ≤ 2e-4 := by norm_num [EPS_G]

theorem C4_tolerance_schedule_shape_witness :
    ((10 ≤ 20 ∧ 20 ≤ 60 ∧ 60 < 100) ∧
      (effective_eps 60).1 ≤ (effective_eps 20).1 ∧
      (effective_eps 60).2 ≤ (effective_eps 20).2) ∧
    ((100 ≤ 200 ∧ 200 ≤ 500) ∧ effective_eps 200 = (EPS_C, EPS_G)) ∧
    ((500 < 600 ∧ 600 ≤ 700) ∧
      (effective_eps 600).1 ≤ (effective_eps 700).1 ∧
      (effective_eps 600).2 ≤ (effective_eps 700).2) ∧
    ((effective_eps 600).1 ≤ 2e-6 ∧ (effective_eps 600).2 ≤ 2e-4) :=
  ⟨⟨⟨by decide, by decide, by decide⟩,
      C4_tolerance_schedule_shape.1 20 60 (by decide) (by decide) (by decide)⟩,
    ⟨⟨by decide, by decide⟩,
      C4_tolerance_schedule_shape.2.1 200 (by decide) (by decide)⟩,
    ⟨⟨by decide, by decide⟩,
      C4_tolerance_schedule_shape.2.2.1 600 700 (by decide) (by decide)⟩,
    C4_tolerance_schedule_shape.2.2.2 600 (by decide)⟩

/-- Claim C5, counterexample: the tolerances scheduled at generation 9 and
at generation 10 are identical — at generation 10 the ramp progress is
`(10 - 10) / 90 = 0`, so the geometric interpolation returns exactly the
warmup pair `(0.01, 0.1)` again, contradicting the claimed boundary. -/
theorem C5_gen9_equals_gen10_counterexample :
    effective_eps 9 = effective_eps 10 := by
  rw [effective_eps_warmup (by omega), effective_eps_ramp (by omega) (by omega)]
  norm_num

/-- Claim C5, amended: for every generation < 10 the scheduled tolerances
equal the fixed warmup values `(0.01, 0.1)` exactly; generation 10 yields
the same warmup pair (ramp progress 0), and the first boundary at which
the schedule changes is generation 10 versus generation 11. -/
theorem C5_warmup_tolerances (g : ℕ) (h : g < 10) :
    effective_eps g = (0.01, 0.1) ∧
    effective_eps 10 = (0.01, 0.1) ∧
    effective_eps 10 ≠ effective_eps 11 := by
  refine ⟨effective_eps_warmup h, ?_, ?_⟩
  · rw [effective_eps_ramp (by omega) (by omega)]
    norm_num
  · rw [effective_eps_ramp (by omega) (by omega),
      effective_eps_ramp (by omega) (by omega)]
    intro hcon
    have h1 := congrArg Prod.fst hcon
    simp only at h1
    have h0 : ((((10 : ℕ) : ℝ) - 10) / 90) = 0 := by norm_num
    rw [h0, Real.rpow_zero] at h1
    have hlt : (EPS_C / 0.01 : ℝ) ^ ((((11 : ℕ) : ℝ) - 10) / 90) < 1 :=
      Real.rpow_lt_one (by norm_num [EPS_C]) (by norm_num [EPS_C]) (by norm_num)
    nlinarith [h1, hlt]

theorem C5_warmup_tolerances_witness :
    5 < 10 ∧ effective_eps 5 = (0.01, 0.1) :=
  ⟨by decide, (C5_warmup_tolerances 5 (by decide)).1⟩

/-- Claim C6, counterexample: in the VEV-mediated variant a zero kinetic
coefficient trips the `abs(A_coeff) < 1e-15` guard of lines 105-119, which
returns fitness 1000, not the 1e9 sentinel the claim demands of both
variants. -/
theorem C6_vev_variant_not_sentinel_counterexample :
    (GA2.evaluate_chromosome_high_precision [0, 1, 1, 1, 1, 1] 0).fitness = 1000 ∧
    (1000 : ℝ) ≠ 1e9 := by
  have hphi : GA2.phi0_of 1 1 = 1 := by
    unfold GA2.phi0_of
    rw [if_pos (by norm_num)]
    norm_num
  have hae : GA2.alpha_eff_of 1 1 1 = some (ALPHA_TARGET / 2) := by
    unfold GA2.alpha_eff_of
    rw [hphi]
    norm_num
  have hGe : GA2.G_eff_of 1 1 1 = some (G_TARGET / 2) := by
    unfold GA2.G_eff_of
    rw [hphi]
    norm_num
  constructor
  · rw [GA2.evaluate2_cons]
    simp only [GA2.evaluate_core2]
    rw [hae, hGe]
    simp only []
    rw [if_pos (by norm_num)]
  · norm_num

/-- Claim C6, amended: for every 6-coefficient input whose kinetic
coefficient is 0 and every generation, the direct-mapping variant returns
the sentinel fitness `1e9` with all three deviation fields 1; the
VEV-mediated variant returns the rejection fitness `1000` (not the `1e9`
sentinel) with all three deviation fields 1 whenever its Phase-2
effective-constant divisions are defined, and when a Phase-2 denominator
`1 + coupling * phi0^2` is exactly zero it instead raises the trapped
`decimal.DivisionByZero` before reaching the kinetic guard and returns the
error-annotated `1e9` sentinel (still with all deviation fields 1). -/
theorem C6_zero_kinetic_coefficient (b c d e f : ℝ) (generation : ℕ) :
    (evaluate_chromosome_high_precision [0, b, c, d, e, f] generation =
      knockoutResult [0, b, c, d, e, f]) ∧
    (∀ alpha_eff G_eff : ℝ,
      GA2.alpha_eff_of e c d = some alpha_eff →
      GA2.G_eff_of f c d = some G_eff →
      GA2.evaluate_chromosome_high_precision [0, b, c, d, e, f] generation =
        { GA2.knockoutResult2 [0, b, c, d, e, f] e f with fitness := 1000 }) ∧
    (GA2.alpha_eff_of e c d = none ∨ GA2.G_eff_of f c d = none →
      GA2.evaluate_chromosome_high_precision [0, b, c, d, e, f] generation =
        { GA2.knockoutResult2 [0, b, c, d, e, f] e f with error := true }) := by
  refine ⟨?_, ?_, ?_⟩
  · rw [evaluate_cons]
    unfold evaluate_core
    rw [if_pos (by norm_num)]
  · intro alpha_eff G_eff hae hGe
    rw [GA2.evaluate2_cons]
    simp only [GA2.evaluate_core2]
    rw [hae, hGe]
    simp only []
    rw [if_pos (by norm_num)]
  · intro h
    rw [GA2.evaluate2_cons]
    exact GA2.evaluate_core2_phase2_raise 0 b c d e f _ generation h

theorem C6_zero_kinetic_coefficient_witness :
    (GA2.alpha_eff_of 1 1 1 = some (ALPHA_TARGET / 2) ∧
      GA2.G_eff_of 1 1 1 = some (G_TARGET / 2) ∧
      GA2.evaluate_chromosome_high_precision [0, 1, 1, 1, 1, 1] 5 =
        { GA2.knockoutResult2 [0, 1, 1, 1, 1, 1] 1 1 with fitness := 1000 }) ∧
    (GA2.alpha_eff_of (-1) 1 1 = none ∧
      GA2.evaluate_chromosome_high_precision [0, 1, 1, 1, -1, 1] 5 =
        { GA2.knockoutResult2 [0, 1, 1, 1, -1, 1] (-1) 1 with error := true }) ∧
    evaluate_chromosome_high_precision [0, 1, 1, 1, 1, 1] 5 =
      knockoutResult [0, 1, 1, 1, 1, 1] := by
  have hphi : GA2.phi0_of 1 1 = 1 := by
    unfold GA2.phi0_of
    rw [if_pos (by norm_num)]
    norm_num
  have hae : GA2.alpha_eff_of 1 1 1 = some (ALPHA_TARGET / 2) := by
    unfold GA2.alpha_eff_of
    rw [hphi]
    norm_num
  have hGe : GA2.G_eff_of 1 1 1 = some (G_TARGET / 2) := by
    unfold GA2.G_eff_of
    rw [hphi]
    norm_num
  have hnone : GA2.alpha_eff_of (-1) 1 1 = none := by
    unfold GA2.alpha_eff_of
    rw [hphi]
    norm_num
  exact ⟨⟨hae, hGe,
      (C6_zero_kinetic_coefficient 1 1 1 1 1 5).2.1 _ _ hae hGe⟩,
    ⟨hnone, (C6_zero_kinetic_coefficient 1 1 1 (-1) 1 5).2.2 (Or.inl hnone)⟩,
    (C6_zero_kinetic_coefficient 1 1 1 1 1 5).1⟩

/-- Claim C7: after any sequence of commands, the `context_precision`
reported by `test_precision` equals the tier set by the generation of the
most recently processed `evaluate` (16 below 500, 20 on `[500, 1000)`, 30
from 1000 on), or the start-up default 16 when no `evaluate` has run;
this holds regardless of what the evaluations returned, since line 64
sets the context before the `try` block. -/
theorem C7_test_precision_reports_last_tier :
    (∀ lines : List InputLine,
      runPrec initial_precision lines = tierFor 16 (lastEvalGen lines) ∧
      (step (runPrec initial_precision lines) InputLine.testPrecisionCmd).2 =
        [OutLine.json (JsonPayload.testPrecisionResp
          "0.007297352566411018123456789" 28 (tierFor 16 (lastEvalGen lines)))]) ∧
    (∀ g : ℕ,
      (g < 500 → set_precision_for_generation g = 16) ∧
      (500 ≤ g → g < 1000 → set_precision_for_generation g = 20) ∧
      (1000 ≤ g → set_precision_for_generation g = 30)) := by
  constructor
  · intro lines
    have h := runPrec_eq_tierFor lines initial_precision
    have hi : initial_precision = 16 := rfl
    rw [hi] at h ⊢
    constructor
    · rw [h]
    · rw [h]
      rfl
  · intro g
    refine ⟨fun h => ?_, fun h1 h2 => ?_, fun h => ?_⟩
    · unfold set_precision_for_generation
      rw [if_pos h]
    · unfold set_precision_for_generation
      rw [if_neg (by omega), if_pos h2]
    · unfold set_precision_for_generation
      rw [if_neg (by omega), if_neg (by omega)]

theorem C7_test_precision_reports_last_tier_witness :
    (500 ≤ 600 ∧ 600 < 1000 ∧ set_precision_for_generation 600 = 20) ∧
    runPrec initial_precision [InputLine.evaluateCmd [] 600] =
      tierFor 16 (lastEvalGen [InputLine.evaluateCmd [] 600]) :=
  ⟨⟨by decide, by decide,
      (C7_test_precision_reports_last_tier.2 600).2.1 (by decide) (by decide)⟩,
    (C7_test_precision_reports_last_tier.1 [InputLine.evaluateCmd [] 600]).1⟩

/-- Claim C8: two `evaluate` requests with identical coefficient lists and
identical generation, separated only by commands none of which is an
`evaluate` at a different generation, print identical responses — in both
worker variants the response is a function of the request alone (the
precision context is overwritten from the generation before computing). -/
theorem C8_evaluate_determinism :
    (∀ (p : ℕ) (coefficients : List ℝ) (generation : ℕ) (mid : List InputLine),
      (∀ co g, InputLine.evaluateCmd co g ∈ mid → g = generation) →
      (step p (InputLine.evaluateCmd coefficients generation)).2 =
        (step (runPrec (step p (InputLine.evaluateCmd coefficients generation)).1 mid)
          (InputLine.evaluateCmd coefficients generation)).2) ∧
    (∀ (p : ℕ) (coefficients : List ℝ) (generation : ℕ) (mid : List InputLine),
      (∀ co g, InputLine.evaluateCmd co g ∈ mid → g = generation) →
      (step2 p (InputLine.evaluateCmd coefficients generation)).2 =
        (step2 (runPrec2 (step2 p (InputLine.evaluateCmd coefficients generation)).1 mid)
          (InputLine.evaluateCmd coefficients generation)).2) :=
  ⟨fun _ _ _ _ _ => rfl, fun _ _ _ _ _ => rfl⟩

theorem C8_evaluate_determinism_witness :
    (∀ co g, InputLine.evaluateCmd co g ∈ [InputLine.pingCmd] → g = 0) ∧
    (step 16 (InputLine.evaluateCmd [] 0)).2 =
      (step (runPrec (step 16 (InputLine.evaluateCmd [] 0)).1 [InputLine.pingCmd])
        (InputLine.evaluateCmd [] 0)).2 := by
  have hmid : ∀ co g, InputLine.evaluateCmd co g ∈ [InputLine.pingCmd] → g = 0 := by
    intro co g hmem
    simp at hmem
  exact ⟨hmid, C8_evaluate_determinism.1 16 [] 0 [InputLine.pingCmd] hmid⟩

/-- Claim C10: `ping` and `test_precision` leave the process-wide precision
context unchanged; only `evaluate` mutates it, setting it — as the first
action of the evaluator, before the `try` block, hence regardless of the
outcome — to the tier determined solely by the request's generation, in
both worker variants. -/
theorem C10_precision_frame :
    (∀ p : ℕ, (step p InputLine.pingCmd).1 = p) ∧
    (∀ p : ℕ, (step p InputLine.testPrecisionCmd).1 = p) ∧
    (∀ (p : ℕ) (co : List ℝ) (g : ℕ),
      (step p (InputLine.evaluateCmd co g)).1 = set_precision_for_generation g) ∧
    (∀ p : ℕ, (step2 p InputLine.pingCmd).1 = p) ∧
    (∀ p : ℕ, (step2 p InputLine.testPrecisionCmd).1 = p) ∧
    (∀ (p : ℕ) (co : List ℝ) (g : ℕ),
      (step2 p (InputLine.evaluateCmd co g)).1 = set_precision_for_generation g) :=
  ⟨fun _ => rfl, fun _ => rfl, fun _ _ _ => rfl,
    fun _ => rfl, fun _ => rfl, fun _ _ _ => rfl⟩

/-- Claim C1: knockout dominance, in both variants.  For every 6-coefficient
input on which the gate's deviations are computed at all (in GA1 that
requires the dispersion ratio to be nonzero when the kinetic guard passes,
since a zero ratio returns the fitness-1000 degenerate rejection first; in
GA2 that Phase 2 computes both effective constants without raising the
trapped `decimal.DivisionByZero` and the `abs(A_coeff) < 1e-15` guard
passes) and every generation: if the speed deviation exceeds `eps_primary`
or the gravitational deviation exceeds `eps_secondary`, `evaluate` returns
the sentinel dictionary with fitness `1e9` and all deviation fields 1,
regardless of every penalty and elegance-bonus term. -/
theorem C1_knockout_dominance :
    (∀ a b c d e f : ℝ, ∀ generation : ℕ,
      (|a| < 1e-15 ∨ b ≠ 0) →
      (delta_c_of a b > (effective_eps generation).1 ∨
        delta_G_of f > (effective_eps generation).2) →
      evaluate_chromosome_high_precision [a, b, c, d, e, f] generation =
        knockoutResult [a, b, c, d, e, f]) ∧
    (∀ a b c d e f : ℝ, ∀ generation : ℕ, ∀ alpha_eff G_eff : ℝ,
      GA2.alpha_eff_of e c d = some alpha_eff →
      GA2.G_eff_of f c d = some G_eff →
      ¬(|(-2) * a| < 1e-15) →
      (GA2.delta_c_of a b > (effective_eps generation).1 ∨
        |G_eff - G_TARGET| / G_TARGET > (effective_eps generation).2) →
      GA2.evaluate_chromosome_high_precision [a, b, c, d, e, f] generation =
        GA2.knockoutResult2 [a, b, c, d, e, f] e f) := by
  constructor
  · intro a b c d e f generation hab hgate
    rw [evaluate_cons]
    exact evaluate_core_gate_knockout a b c d e f _ generation hab hgate
  · intro a b c d e f generation alpha_eff G_eff hae hGe ha hgate
    rw [GA2.evaluate2_cons]
    exact GA2.evaluate_core2_gate_knockout a b c d e f _ generation
      alpha_eff G_eff hae hGe ha hgate

theorem C1_knockout_dominance_witness :
    ((|(-1 : ℝ)| < 1e-15 ∨ (1 : ℝ) ≠ 0) ∧
      (delta_c_of (-1) 1 > (effective_eps 0).1 ∨
        delta_G_of 0 > (effective_eps 0).2) ∧
      evaluate_chromosome_high_precision [-1, 1, 0, 0, 0, 0] 0 =
        knockoutResult [-1, 1, 0, 0, 0, 0]) ∧
    (GA2.alpha_eff_of 0 1 1 = some ALPHA_TARGET ∧
      GA2.G_eff_of 1 1 1 = some (G_TARGET / 2) ∧
      ¬(|(-2 : ℝ) * 1| < 1e-15) ∧
      (GA2.delta_c_of 1 1 > (effective_eps 0).1 ∨
        |G_TARGET / 2 - G_TARGET| / G_TARGET > (effective_eps 0).2) ∧
      GA2.evaluate_chromosome_high_precision [1, 1, 1, 1, 0, 1] 0 =
        GA2.knockoutResult2 [1, 1, 1, 1, 0, 1] 0 1) := by
  have hab : |(-1 : ℝ)| < 1e-15 ∨ (1 : ℝ) ≠ 0 := Or.inr (by norm_num)
  have hG : delta_G_of 0 = 1 := by
    unfold delta_G_of gravity_branch
    norm_num
  have heps : (effective_eps 0).2 = 0.1 := by
    rw [effective_eps_warmup (by omega)]
  have hgate : delta_c_of (-1) 1 > (effective_eps 0).1 ∨
      delta_G_of 0 > (effective_eps 0).2 := by
    right
    rw [hG, heps]
    norm_num
  have ha2 : ¬(|(-2 : ℝ) * 1| < 1e-15) := by norm_num
  have hphi : GA2.phi0_of 1 1 = 1 := by
    unfold GA2.phi0_of
    rw [if_pos (by norm_num)]
    norm_num
  have hae : GA2.alpha_eff_of 0 1 1 = some ALPHA_TARGET := by
    unfold GA2.alpha_eff_of
    rw [hphi]
    norm_num
  have hGe : GA2.G_eff_of 1 1 1 = some (G_TARGET / 2) := by
    unfold GA2.G_eff_of
    rw [hphi]
    norm_num
  have hg2 : |G_TARGET / 2 - G_TARGET| / G_TARGET = 1 / 2 := by
    rw [abs_of_nonpos (by norm_num [G_TARGET])]
    norm_num [G_TARGET]
  have hgate2 : GA2.delta_c_of 1 1 > (effective_eps 0).1 ∨
      |G_TARGET / 2 - G_TARGET| / G_TARGET > (effective_eps 0).2 := by
    right
    rw [hg2, heps]
    norm_num
  exact ⟨⟨hab, hgate, C1_knockout_dominance.1 (-1) 1 0 0 0 0 0 hab hgate⟩,
    ⟨hae, hGe, ha2, hgate2,
      C1_knockout_dominance.2 1 1 1 1 0 1 0 ALPHA_TARGET (G_TARGET / 2)
        hae hGe ha2 hgate2⟩⟩

/-- Claim C2, evaluation at the failing input: one `evaluate` line carrying
the 5-element coefficient list `[1, 2, 3, 4, 5]` makes the GA1 worker print
two plain-text lines — `print(f"Python evaluator error: ...")` and
`print(f"Coefficients: ...")` in the `except` handler go to stdout — before
the JSON response, so the response stream contains non-JSON lines (the
worker does keep running and still emits the sentinel JSON object last). -/
theorem C2_error_path_prints_plain_text :
    runOutputs initial_precision [InputLine.evaluateCmd [1, 2, 3, 4, 5] 0] =
      [OutLine.text "Python evaluator error", OutLine.text "Coefficients",
        OutLine.json (JsonPayload.evalResp
          { knockoutResult [1, 2, 3, 4, 5] with error := true })] ∧
    OutLine.text "Python evaluator error" ∈
      runOutputs initial_precision [InputLine.evaluateCmd [1, 2, 3, 4, 5] 0] := by
  have h : evaluate_chromosome_high_precision [1, 2, 3, 4, 5] 0 =
      { knockoutResult [1, 2, 3, 4, 5] with error := true } := by
    unfold evaluate_chromosome_high_precision
    rw [if_pos (by decide)]
  have hout : runOutputs initial_precision [InputLine.evaluateCmd [1, 2, 3, 4, 5] 0] =
      [OutLine.text "Python evaluator error", OutLine.text "Coefficients",
        OutLine.json (JsonPayload.evalResp
          { knockoutResult [1, 2, 3, 4, 5] with error := true })] := by
    simp [runOutputs, step, evaluate_stdout, h]
  refine ⟨hout, ?_⟩
  rw [hout]
  simp

/-- Claim C9, counterexample: the claim's parenthetical says the scheduled
secondary tolerance never exceeds `2e-4`, but during warmup (generation 0)
it is `0.1`. -/
theorem C9_secondary_tolerance_counterexample :
    (effective_eps 0).2 = 0.1 ∧ (2e-4 : ℝ) < 0.1 := by
  constructor
  · rw [effective_eps_warmup (by omega)]
  · norm_num

/-- Claim C9, amended: in the direct-mapping variant, if
`1e-13 < |coeff[5]| < 1e-2` the modeled gravitational constant is
`coeff[5]` itself; if `|coeff[5]| ≥ 1e-2` or `1e-30 ≤ |coeff[5]| ≤ 1e-13`
it is `1 / (16 * PI * |coeff[5]|)`; and if `|coeff[5]| < 1e-30` the
gravitational deviation is pinned to 1, which — the scheduled secondary
tolerance never exceeding its warmup value `0.1` (not `2e-4` as claimed) —
always triggers the knockout on every input that reaches the gate. -/
theorem C9_gravity_heuristic :
    (∀ c5 : ℝ, 1e-13 < |c5| → |c5| < 1e-2 →
      gravity_branch c5 = (some c5, |c5 - G_TARGET| / G_TARGET)) ∧
    (∀ c5 : ℝ, 1e-2 ≤ |c5| ∨ (1e-30 ≤ |c5| ∧ |c5| ≤ 1e-13) →
      gravity_branch c5 = (some (1 / (16 * PI * |c5|)),
        |1 / (16 * PI * |c5|) - G_TARGET| / G_TARGET)) ∧
    (∀ c5 : ℝ, |c5| < 1e-30 → delta_G_of c5 = 1) ∧
    (∀ generation : ℕ, (effective_eps generation).2 ≤ 0.1) ∧
    (∀ a b c d e f : ℝ, ∀ generation : ℕ,
      (|a| < 1e-15 ∨ b ≠ 0) → |f| < 1e-30 →
      evaluate_chromosome_high_precision [a, b, c, d, e, f] generation =
        knockoutResult [a, b, c, d, e, f]) := by
  refine ⟨?_, ?_, ?_, effective_eps_snd_le, ?_⟩
  · intro c5 h1 h2
    unfold gravity_branch
    rw [if_neg (by intro hcon; nlinarith), if_pos ⟨h1, h2⟩]
  · intro c5 h
    unfold gravity_branch
    rcases h with h | ⟨h1, h2⟩
    · rw [if_neg (by intro hcon; nlinarith),
        if_neg (by intro hcon; nlinarith [hcon.2])]
    · rw [if_neg (by intro hcon; nlinarith),
        if_neg (by intro hcon; nlinarith [hcon.1])]
  · intro c5 h
    unfold delta_G_of gravity_branch
    rw [if_pos h]
  · intro a b c d e f generation hab hf
    rw [evaluate_cons]
    apply evaluate_core_gate_knockout a b c d e f _ generation hab
    right
    have h1 : delta_G_of f = 1 := by
      unfold delta_G_of gravity_branch
      rw [if_pos hf]
    rw [h1]
    exact lt_of_le_of_lt (effective_eps_snd_le generation) (by norm_num)

theorem C9_gravity_heuristic_witness :
    ((1e-13 : ℝ) < |(1e-5 : ℝ)| ∧ |(1e-5 : ℝ)| < 1e-2 ∧
      gravity_branch 1e-5 = (some 1e-5, |(1e-5 : ℝ) - G_TARGET| / G_TARGET)) ∧
    ((1e-2 : ℝ) ≤ |(3 : ℝ)| ∧
      gravity_branch 3 = (some (1 / (16 * PI * |(3 : ℝ)|)),
        |1 / (16 * PI * |(3 : ℝ)|) - G_TARGET| / G_TARGET)) ∧
    (|(0 : ℝ)| < 1e-30 ∧ delta_G_of 0 = 1) ∧
    ((|(-1 : ℝ)| < 1e-15 ∨ (2 : ℝ) ≠ 0) ∧ |(0 : ℝ)| < 1e-30 ∧
      evaluate_chromosome_high_precision [-1, 2, 0, 0, 0, 0] 3 =
        knockoutResult [-1, 2, 0, 0, 0, 0]) := by
  have h1 : (1e-13 : ℝ) < |(1e-5 : ℝ)| := by
    rw [abs_of_pos (by norm_num)]
    norm_num
  have h2 : |(1e-5 : ℝ)| < 1e-2 := by
    rw [abs_of_pos (by norm_num)]
    norm_num
  have h3 : (1e-2 : ℝ) ≤ |(3 : ℝ)| := by
    rw [abs_of_pos (by norm_num)]
    norm_num
  have h4 : |(0 : ℝ)| < 1e-30 := by norm_num
  have hab : |(-1 : ℝ)| < 1e-15 ∨ (2 : ℝ) ≠ 0 := Or.inr (by norm_num)
  exact ⟨⟨h1, h2, C9_gravity_heuristic.1 1e-5 h1 h2⟩,
    ⟨h3, C9_gravity_heuristic.2.1 3 (Or.inl h3)⟩,
    ⟨h4, C9_gravity_heuristic.2.2.1 0 h4⟩,
    ⟨hab, h4, C9_gravity_heuristic.2.2.2.2 (-1) 2 0 0 0 0 3 hab h4⟩⟩

end

end HPWorker
